import Mathlib

/-!
Verification of the ndn-operator controller (Rust sources under src/crd/router.rs,
src/crd/network.rs, src/lib.rs) against its natural-language specification.

The Rust code is shallowly embedded: each structure mirrors exactly the fields the
controller reads or writes (fields only ever left at their library defaults are
omitted); Rust BTreeSet String becomes Finset String, Option becomes Option,
fallible store calls are passed in as explicit outcomes.  The Rust field named
after a network address marker is rendered as pfx because its original spelling
is a Lean keyword.
-/

namespace Ndn

/-- src/crd/router.rs: NETWORK_LABEL_KEY. -/
def NETWORK_LABEL_KEY : String := "network.named-data.net/name"

/-- src/crd/router.rs: RouterFaces, the four optional transport addresses. -/
structure RouterFaces where
  udp4 : Option String
  tcp4 : Option String
  udp6 : Option String
  tcp6 : Option String
deriving DecidableEq

/-- src/crd/router.rs: RouterFaces::to_btree_set, inserting each present slot in
source order into an initially empty set. -/
def RouterFaces.to_btree_set (f : RouterFaces) : Finset String :=
  let s0 : Finset String := ∅
  let s1 := match f.udp4 with | some v => insert v s0 | none => s0
  let s2 := match f.tcp4 with | some v => insert v s1 | none => s1
  let s3 := match f.udp6 with | some v => insert v s2 | none => s2
  match f.tcp6 with | some v => insert v s3 | none => s3

/-- src/crd/router.rs: RouterStatus. -/
structure RouterStatus where
  online : Bool
  neighbors : Finset String
deriving DecidableEq

/-- src/crd/router.rs: RouterSpec.  `pfx` renders the address-marker field,
`node` the node identity. -/
structure RouterSpec where
  pfx : String
  node : String
  faces : RouterFaces
deriving DecidableEq

/-- A Router object: metadata (name, namespace `ns`, labels) plus spec and
optional status subresource.  `name` models `name_any()`. -/
structure Router where
  name : String
  ns : String
  labels : List (String × String)
  spec : RouterSpec
  status : Option RouterStatus
deriving DecidableEq

/-- src/lib.rs: kube::Error, abstracted to an error code. -/
structure KubeErr where
  code : Nat
deriving DecidableEq

/-- src/lib.rs: the crate error enum (the finalizer variant's boxed payload is
abstracted to a message). -/
inductive Error where
  | SerializationError (msg : String)
  | KubeError (e : KubeErr)
  | FinalizerError (msg : String)
deriving DecidableEq

/-- kube runtime Action; the controller only ever returns await_change(). -/
inductive Action where
  | awaitChange
deriving DecidableEq

/-- The label-selector query issued by Router::reconcile and Router::cleanup:
Routers in self's namespace whose NETWORK_LABEL_KEY label equals self's NAME
(the source formats the selector with `self.name_any()`). -/
def routerListSelector (self : Router) (r : Router) : Bool :=
  r.ns == self.ns && (r.labels.lookup NETWORK_LABEL_KEY == some self.name)

/-- The routers whose status both Router::reconcile and Router::cleanup target:
the list result further filtered by `router.name_any() != self.name_any()`. -/
def reconcileTargets (store : List Router) (self : Router) : List Router :=
  (store.filter (fun r => routerListSelector self r)).filter
    (fun r => !(r.name == self.name))

/-- The current_neighbors value read in both Router methods: the sibling's
neighbor set, or the empty set when the status subresource is absent. -/
def currentNeighbors (r : Router) : Finset String :=
  match r.status with
  | some st => st.neighbors
  | none => ∅

/-- The status document Router::reconcile merge-patches onto a sibling:
online set to true, and every face of self inserted (BTreeSet iteration is in
ascending order) into the sibling's current neighbor set. -/
def routerReconcilePatch (self sib : Router) : RouterStatus :=
  { online := true
    neighbors :=
      ((RouterFaces.to_btree_set self.spec.faces).sort (· ≤ ·)).foldl
        (fun t a => insert a t) (currentNeighbors sib) }

/-- The status document Router::cleanup merge-patches onto a sibling:
online set to false, and every face of self removed from the sibling's current
neighbor set. -/
def routerCleanupPatch (self sib : Router) : RouterStatus :=
  { online := false
    neighbors :=
      ((RouterFaces.to_btree_set self.spec.faces).sort (· ≤ ·)).foldl
        (fun t a => t.erase a) (currentNeighbors sib) }

/-- The per-sibling patch documents Router::reconcile constructs, keyed by the
sibling's name. -/
def reconcilePatchList (self : Router) (store : List Router) :
    List (String × RouterStatus) :=
  (reconcileTargets store self).map (fun r => (r.name, routerReconcilePatch self r))

/-- The per-sibling patch documents Router::cleanup constructs. -/
def cleanupPatchList (self : Router) (store : List Router) :
    List (String × RouterStatus) :=
  (reconcileTargets store self).map (fun r => (r.name, routerCleanupPatch self r))

/-- Outcomes of the store calls a Router reconcile performs: the cluster store
backing the list call, a possible list error, the outcome each sibling's
status patch would have, and the event-publish outcome. -/
structure ClusterEff where
  store : List Router
  listErr : Option KubeErr
  patchErr : String → Option KubeErr
  publishErr : Option KubeErr

/-- Observable outcome of one Router reconcile or cleanup: the patch documents
constructed for siblings, the sibling patch errors the code retains, and the
function's return value. -/
structure RouterOutcome where
  patchesIssued : List (String × RouterStatus)
  collectedErrors : List Error
  result : Except Error Action


/-- src/crd/router.rs: Router::reconcile.  A list error propagates; the
per-sibling `patch_status` call's result is bound to `_` and dropped, so
`eff.patchErr` never reaches control flow and no error is retained; the
publish error propagates; otherwise await_change() is returned. -/
def Router.reconcileModel (self : Router) (eff : ClusterEff) : RouterOutcome :=
  match eff.listErr with
  | some e => { patchesIssued := [], collectedErrors := [],
                result := .error (.KubeError e) }
  | none =>
    let patches := reconcilePatchList self eff.store
    match eff.publishErr with
    | some e => { patchesIssued := patches, collectedErrors := [],
                  result := .error (.KubeError e) }
    | none => { patchesIssued := patches, collectedErrors := [],
                result := .ok Action.awaitChange }

/-- src/crd/router.rs: Router::cleanup, same shape as reconcile with the
removal patch. -/
def Router.cleanupModel (self : Router) (eff : ClusterEff) : RouterOutcome :=
  match eff.listErr with
  | some e => { patchesIssued := [], collectedErrors := [],
                result := .error (.KubeError e) }
  | none =>
    let patches := cleanupPatchList self eff.store
    match eff.publishErr with
    | some e => { patchesIssued := patches, collectedErrors := [],
                  result := .error (.KubeError e) }
    | none => { patchesIssued := patches, collectedErrors := [],
                result := .ok Action.awaitChange }

/-- True exactly when a reconcile result is an error return. -/
def isErrResult : Except Error Action → Bool
  | .error _ => true
  | .ok _ => false

/-! ## Network side (src/crd/network.rs)

The k8s-openapi structures below mirror exactly the fields this controller
sets or reads; fields the code only ever leaves at their library defaults are
omitted. -/

/-- src/crd/network.rs: CONTAINER_CONFIG_DIR. -/
def CONTAINER_CONFIG_DIR : String := "/etc/ndnd"

/-- src/crd/network.rs: CONTAINER_SOCKET_DIR. -/
def CONTAINER_SOCKET_DIR : String := "/run/ndnd"

/-- src/crd/network.rs: HOST_CONFIG_DIR. -/
def HOST_CONFIG_DIR : String := "/etc/ndnd"

/-- src/crd/network.rs: HOST_SOCKET_DIR. -/
def HOST_SOCKET_DIR : String := "/run/ndnd"

/-- k8s OwnerReference, with the fields controller_owner_ref populates. -/
structure OwnerReference where
  apiVersion : String
  kind : String
  name : String
  uid : String
  controller : Option Bool
  blockOwnerDeletion : Option Bool

/-- k8s ObjectMeta, restricted to the fields this controller sets. -/
structure KMeta where
  name : Option String
  ownerReferences : Option (List OwnerReference)
  labels : Option (List (String × String))

/-- k8s ObjectFieldSelector. -/
structure ObjectFieldSelector where
  fieldPath : String

/-- k8s EnvVarSource (only field_ref is used). -/
structure EnvVarSource where
  fieldRef : Option ObjectFieldSelector

/-- k8s EnvVar. -/
structure EnvVar where
  name : String
  value : Option String
  valueFrom : Option EnvVarSource

/-- k8s ContainerPort, restricted to the fields the code sets. -/
structure ContainerPort where
  containerPort : Int
  hostPort : Option Int
  protocol : Option String

/-- k8s SecurityContext (only privileged is used). -/
structure SecurityContext where
  privileged : Option Bool

/-- k8s VolumeMount. -/
structure VolumeMount where
  name : String
  mountPath : String
  readOnly : Option Bool

/-- k8s HostPathVolumeSource (`typ` renders the reserved field spelling). -/
structure HostPathVolumeSource where
  path : String
  typ : Option String

/-- k8s Volume (only host_path volumes are used). -/
structure Volume where
  name : String
  hostPath : Option HostPathVolumeSource

/-- k8s Container, restricted to the fields the code sets or reads. -/
structure Container where
  name : String
  image : Option String
  command : Option (List String)
  args : Option (List String)
  env : Option (List EnvVar)
  ports : Option (List ContainerPort)
  securityContext : Option SecurityContext
  volumeMounts : Option (List VolumeMount)

/-- k8s PodSpec, restricted to the fields the code sets or reads. -/
structure PodSpec where
  serviceAccountName : Option String
  hostNetwork : Option Bool
  dnsPolicy : Option String
  nodeSelector : Option (List (String × String))
  initContainers : Option (List Container)
  containers : List Container
  volumes : Option (List Volume)

/-- k8s Pod (only the spec is read by the controller). -/
structure Pod where
  spec : Option PodSpec

/-- k8s PodTemplateSpec. -/
structure PodTemplateSpec where
  metadata : Option KMeta
  spec : Option PodSpec

/-- k8s LabelSelector (only match_labels is set). -/
structure LabelSelector where
  matchLabels : Option (List (String × String))

/-- k8s DaemonSetSpec. -/
structure DaemonSetSpec where
  selector : LabelSelector
  template : PodTemplateSpec

/-- k8s DaemonSet. -/
structure DaemonSet where
  metadata : KMeta
  spec : Option DaemonSetSpec

/-- src/crd/network.rs: NetworkSpec.  `pfx` renders the address-marker field. -/
structure NetworkSpec where
  pfx : String
  udpUnicastPort : Int
  nodeSelector : Option (List (String × String))

/-- src/crd/network.rs: NetworkStatus. -/
structure NetworkStatus where
  dsCreated : Option Bool

/-- A Network object (name models name_any(); uid backs the owner reference). -/
structure Network where
  name : String
  ns : String
  uid : String
  spec : NetworkSpec
  status : Option NetworkStatus

/-- kube's Resource::controller_owner_ref for a Network, as used by
create_owned_daemonset: api version and kind from the CRD derive, controller
and block_owner_deletion both set. -/
def controllerOwnerRef (n : Network) : OwnerReference :=
  { apiVersion := "named-data.net/v1alpha1"
    kind := "Network"
    name := n.name
    uid := n.uid
    controller := some true
    blockOwnerDeletion := some true }

/-- src/crd/network.rs: Network::socket_file_name. -/
def Network.socket_file_name (n : Network) : String := n.name ++ ".sock"

/-- src/crd/network.rs: Network::container_socket_path. -/
def Network.container_socket_path (n : Network) : String :=
  CONTAINER_SOCKET_DIR ++ "/" ++ n.socket_file_name

/-- src/crd/network.rs: Network::host_socket_path. -/
def Network.host_socket_path (n : Network) : String :=
  HOST_SOCKET_DIR ++ "/" ++ n.socket_file_name

/-- src/crd/network.rs: Network::config_file_name. -/
def Network.config_file_name (n : Network) : String := n.name ++ ".yml"

/-- src/crd/network.rs: Network::container_config_path. -/
def Network.container_config_path (n : Network) : String :=
  CONTAINER_CONFIG_DIR ++ "/" ++ n.config_file_name

/-- src/crd/network.rs: Network::host_config_path. -/
def Network.host_config_path (n : Network) : String :=
  HOST_CONFIG_DIR ++ "/" ++ n.config_file_name

/-- src/crd/network.rs: Network::create_owned_daemonset, translated field by
field from the source. -/
def createOwnedDaemonset (n : Network) (image : Option String)
    (serviceAccount : Option String) : DaemonSet :=
  let oref := controllerOwnerRef n
  let labels : List (String × String) := [("network", n.name)]
  let containerConfigPath := n.container_config_path
  let containerSocketPath := n.container_socket_path
  { metadata :=
      { name := some n.name
        ownerReferences := some [oref]
        labels := some labels }
    spec := some
      { selector := { matchLabels := some labels }
        template :=
          { metadata := some
              { name := none, ownerReferences := none, labels := some labels }
            spec := some
              { serviceAccountName := serviceAccount
                hostNetwork := some true
                dnsPolicy := some "ClusterFirstWithHostNet"
                nodeSelector := n.spec.nodeSelector
                initContainers := some
                  [{ name := "init"
                     image := image
                     command := some ["/init", "--output", containerConfigPath]
                     args := none
                     env := some
                       [{ name := "NDN_NETWORK_NAME"
                          value := some n.name
                          valueFrom := none },
                        { name := "NDN_UDP_UNICAST_PORT"
                          value := some (toString n.spec.udpUnicastPort)
                          valueFrom := none },
                        { name := "NDN_NETWORK_NAMESPACE"
                          value := none
                          valueFrom := some
                            { fieldRef := some { fieldPath := "metadata.namespace" } } },
                        { name := "NDN_ROUTER_NAME"
                          value := none
                          valueFrom := some
                            { fieldRef := some { fieldPath := "spec.nodeName" } } },
                        { name := "NDN_NODE_NAME"
                          value := none
                          valueFrom := some
                            { fieldRef := some { fieldPath := "spec.nodeName" } } },
                        { name := "NDN_SOCKET_PATH"
                          value := some containerSocketPath
                          valueFrom := none }]
                     ports := none
                     securityContext := some { privileged := some true }
                     volumeMounts := some
                       [{ name := "config"
                          mountPath := CONTAINER_CONFIG_DIR
                          readOnly := some false }] }]
                containers :=
                  [{ name := "network"
                     image := some "ghcr.io/named-data/ndnd:20250405"
                     command := some ["/ndnd"]
                     args := some ["daemon", containerConfigPath]
                     env := some
                       [{ name := "NDN_CLIENT_TRANSPORT"
                          value := some ("unix://" ++ containerSocketPath)
                          valueFrom := none }]
                     ports := some
                       [{ containerPort := n.spec.udpUnicastPort
                          hostPort := some n.spec.udpUnicastPort
                          protocol := some "UDP" }]
                     securityContext := some { privileged := some true }
                     volumeMounts := some
                       [{ name := "config"
                          mountPath := CONTAINER_CONFIG_DIR
                          readOnly := some true },
                        { name := "run-ndnd"
                          mountPath := CONTAINER_SOCKET_DIR
                          readOnly := none }] },
                   { name := "watch"
                     image := image
                     command := some ["/sidecar"]
                     args := none
                     env := some
                       [{ name := "NDN_NETWORK_NAME"
                          value := some n.name
                          valueFrom := none },
                        { name := "NDN_NETWORK_NAMESPACE"
                          value := none
                          valueFrom := some
                            { fieldRef := some { fieldPath := "metadata.namespace" } } },
                        { name := "NDN_ROUTER_NAME"
                          value := none
                          valueFrom := some
                            { fieldRef := some { fieldPath := "spec.nodeName" } } },
                        { name := "NDN_CLIENT_TRANSPORT"
                          value := some ("unix://" ++ containerSocketPath)
                          valueFrom := none }]
                     ports := none
                     securityContext := none
                     volumeMounts := some
                       [{ name := "run-ndnd"
                          mountPath := CONTAINER_SOCKET_DIR
                          readOnly := none }] }]
                volumes := some
                  [{ name := "config"
                     hostPath := some
                       { path := HOST_CONFIG_DIR, typ := some "DirectoryOrCreate" } },
                   { name := "run-ndnd"
                     hostPath := some
                       { path := HOST_SOCKET_DIR, typ := some "DirectoryOrCreate" } }] } } } }

/-- Outcome kind of Network::reconcile: a returned action, a returned error, or
a process panic raised by `expect`. -/
inductive NOutcome where
  | ok (a : Action)
  | err (e : Error)
  | panicked (msg : String)

/-- True exactly when a Network reconcile outcome is an error return (as
opposed to success or a panic). -/
def NOutcome.isErr : NOutcome → Bool
  | .err _ => true
  | _ => false

/-- Outcomes of the store calls Network::reconcile performs.  `podLookup`
models helper::get_my_pod (its body lies outside src/; per the spec it is the
object-store self-lookup, a store call that can fail with a store I/O
error). -/
structure NetworkEff where
  podLookup : Except KubeErr Pod
  dsPatchErr : Option KubeErr
  publishErr : Option KubeErr
  statusPatchErr : Option KubeErr

/-- Observable outcome of one Network reconcile: the DaemonSet document sent in
the server-side apply patch (when reached) and the function's result. -/
structure NetworkOutcome where
  dsApplied : Option DaemonSet
  result : NOutcome

/-- src/crd/network.rs: Network::reconcile.  The self-pod lookup, the pod-spec
access and the first-container access each go through `expect` (a panic on
failure); the DaemonSet apply patch, the event publish and the own-status
merge patch each propagate their error with `?`. -/
def Network.reconcileModel (n : Network) (eff : NetworkEff) : NetworkOutcome :=
  match eff.podLookup with
  | .error _ => { dsApplied := none, result := .panicked "Failed to get my pod" }
  | .ok pod =>
    match pod.spec with
    | none => { dsApplied := none, result := .panicked "Failed to get pod spec" }
    | some ps =>
      match ps.containers.head? with
      | none => { dsApplied := none, result := .panicked "Failed to get my container" }
      | some c =>
        let ds := createOwnedDaemonset n c.image ps.serviceAccountName
        match eff.dsPatchErr with
        | some e => { dsApplied := some ds, result := .err (.KubeError e) }
        | none =>
          match eff.publishErr with
          | some e => { dsApplied := some ds, result := .err (.KubeError e) }
          | none =>
            match eff.statusPatchErr with
            | some e => { dsApplied := some ds, result := .err (.KubeError e) }
            | none => { dsApplied := some ds, result := .ok Action.awaitChange }

/-! ## Claim-side definitions

Each definition below renders the wording of a spec claim, to be compared with
the source-derived definitions above. -/

/-- C1 claim-side sibling selection, following the spec wording: Routers in
self's namespace carrying the network label with the same value as self's own
network label, excluding self. -/
def claimSiblingSelector (self : Router) (r : Router) : Bool :=
  r.ns == self.ns &&
  (r.labels.lookup NETWORK_LABEL_KEY).isSome &&
  r.labels.lookup NETWORK_LABEL_KEY == self.labels.lookup NETWORK_LABEL_KEY &&
  !(r.name == self.name)

/-- C4 claim-side face-set derivation, following the spec wording: the set of
non-empty addresses among the four optional face slots. -/
def nonEmptyFaceSet (f : RouterFaces) : Finset String :=
  (([f.udp4, f.tcp4, f.udp6, f.tcp6].filterMap id).filter
    (fun s => !(s == ""))).toFinset

/-- The set of addresses actually present (a Some slot) among the four face
slots, empty strings included: what to_btree_set computes. -/
def presentFaceSet (f : RouterFaces) : Finset String :=
  ([f.udp4, f.tcp4, f.udp6, f.tcp6].filterMap id).toFinset

/-- C2 claim, as stated: every selected sibling's patch is constructed, every
failing sibling patch contributes its error to the collected errors, and the
reconcile returns an error only when every selected sibling's patch fails. -/
def propagationFailurePolicy (self : Router) (eff : ClusterEff) : Prop :=
  (∀ r ∈ reconcileTargets eff.store self,
    ∃ st, (r.name, st) ∈ (Router.reconcileModel self eff).patchesIssued) ∧
  (∀ r ∈ reconcileTargets eff.store self, ∀ e, eff.patchErr r.name = some e →
    Error.KubeError e ∈ (Router.reconcileModel self eff).collectedErrors) ∧
  (isErrResult (Router.reconcileModel self eff).result = true →
    ∀ r ∈ reconcileTargets eff.store self, eff.patchErr r.name ≠ none)

/-- The sibling's neighbor set after the online patch of Router::reconcile is
applied to its status and the offline patch of Router::cleanup is then applied
on top (no other writer in between). -/
def roundTripNeighbors (self sib : Router) : Finset String :=
  (routerCleanupPatch self
    { sib with status := some (routerReconcilePatch self sib) }).neighbors

/-- C8 claim-side naming, following the spec wording: the generated socket
file is per-Router, named after the router. -/
def socketFileClaim (n : Network) (routerName : String) : Prop :=
  Network.socket_file_name n = routerName ++ ".sock"

/-! ## Concrete fixtures

A small cluster used by the closed theorems: Router r1 labeled with its
Network n1, a sibling r2 carrying the same network label, and two routers
s2, s3 that the source's name-keyed selector does match. -/

/-- Router r1: network label n1, one udp4 face "A". -/
def cSelf : Router :=
  { name := "r1", ns := "default", labels := [(NETWORK_LABEL_KEY, "n1")]
    spec := { pfx := "/ndn", node := "a"
              faces := { udp4 := some "A", tcp4 := none, udp6 := none, tcp6 := none } }
    status := some { online := true, neighbors := ∅ } }

/-- Router r2: same namespace and same network label n1 as r1. -/
def cR2 : Router :=
  { name := "r2", ns := "default", labels := [(NETWORK_LABEL_KEY, "n1")]
    spec := { pfx := "/ndn", node := "b"
              faces := { udp4 := none, tcp4 := none, udp6 := none, tcp6 := none } }
    status := none }

/-- Router s2: carries the network label with value "r1" (r1's NAME), hence
matched by the source's selector; no status subresource. -/
def cS2 : Router :=
  { name := "s2", ns := "default", labels := [(NETWORK_LABEL_KEY, "r1")]
    spec := { pfx := "/ndn", node := "c"
              faces := { udp4 := none, tcp4 := none, udp6 := none, tcp6 := none } }
    status := none }

/-- Router s3: like s2 but already holding r1's face "A" among its
neighbors. -/
def cS3 : Router :=
  { name := "s3", ns := "default", labels := [(NETWORK_LABEL_KEY, "r1")]
    spec := { pfx := "/ndn", node := "d"
              faces := { udp4 := none, tcp4 := none, udp6 := none, tcp6 := none } }
    status := some { online := false, neighbors := {"A"} } }

/-- Store holding r1 and its true network sibling r2. -/
def cStoreC1 : List Router := [cSelf, cR2]

/-- Store holding r1 and the two name-label-matched routers s2, s3. -/
def cStore : List Router := [cSelf, cS2, cS3]

/-- Effects where every sibling status patch would fail, while list and
publish succeed. -/
def cEffAllFail : ClusterEff :=
  { store := cStore, listErr := none
    patchErr := fun _ => some { code := 7 }, publishErr := none }

/-- A Router with no faces at all. -/
def cNoFace : Router :=
  { name := "r0", ns := "default", labels := [(NETWORK_LABEL_KEY, "n1")]
    spec := { pfx := "/ndn", node := "e"
              faces := { udp4 := none, tcp4 := none, udp6 := none, tcp6 := none } }
    status := none }

/-- A concrete Network n1. -/
def cNw : Network :=
  { name := "n1", ns := "default", uid := "u1"
    spec := { pfx := "/ndn", udpUnicastPort := 6363, nodeSelector := none }
    status := none }

/-- Effects where the self-pod lookup fails and every other store call would
succeed. -/
def cNetEffFail : NetworkEff :=
  { podLookup := .error { code := 3 }
    dsPatchErr := none, publishErr := none, statusPatchErr := none }

/-- The controller's own container, as seen through the self-pod lookup. -/
def cCtr : Container :=
  { name := "operator", image := some "img", command := none, args := none
    env := none, ports := none, securityContext := none, volumeMounts := none }

/-- The controller pod's spec, as seen through the self-pod lookup. -/
def cPodSpec : PodSpec :=
  { serviceAccountName := some "sa", hostNetwork := none, dnsPolicy := none
    nodeSelector := none, initContainers := none, containers := [cCtr]
    volumes := none }

/-- The controller's own pod. -/
def cPod : Pod := { spec := some cPodSpec }

/-- Effects where the self-pod lookup succeeds and the DaemonSet apply patch
fails. -/
def cNetEffDsFail : NetworkEff :=
  { podLookup := .ok cPod
    dsPatchErr := some { code := 5 }, publishErr := none, statusPatchErr := none }

/-! ## Helper lemmas -/

/-- Inserting the elements of a list one by one is the union with the list's
elements. -/
theorem foldl_insert_eq_union (l : List String) (s : Finset String) :
    l.foldl (fun t a => insert a t) s = s ∪ l.toFinset := by
  induction l generalizing s with
  | nil => simp
  | cons a l ih =>
    rw [List.foldl_cons, ih]
    ext x
    simp
    try tauto

/-- Erasing the elements of a list one by one is the set difference with the
list's elements. -/
theorem foldl_erase_eq_sdiff (l : List String) (s : Finset String) :
    l.foldl (fun t a => t.erase a) s = s \ l.toFinset := by
  induction l generalizing s with
  | nil => simp
  | cons a l ih =>
    rw [List.foldl_cons, ih]
    ext x
    simp [Finset.mem_sdiff, Finset.mem_erase]
    tauto

/-- Sorting a face set and collecting the result back recovers the set. -/
theorem sort_toFinset_faces (s : Finset String) :
    ((s.sort (· ≤ ·)).toFinset) = s :=
  Finset.sort_toFinset _ s

/-- The neighbor set of the online patch document is the sibling's current
neighbors united with self's face set. -/
theorem routerReconcilePatch_neighbors (self sib : Router) :
    (routerReconcilePatch self sib).neighbors =
      currentNeighbors sib ∪ self.spec.faces.to_btree_set := by
  unfold routerReconcilePatch
  rw [foldl_insert_eq_union, sort_toFinset_faces]

/-- The neighbor set of the offline patch document is the sibling's current
neighbors minus self's face set. -/
theorem routerCleanupPatch_neighbors (self sib : Router) :
    (routerCleanupPatch self sib).neighbors =
      currentNeighbors sib \ self.spec.faces.to_btree_set := by
  unfold routerCleanupPatch
  rw [foldl_erase_eq_sdiff, sort_toFinset_faces]

/-! ## Claims -/

/-- C1: at the failing input (Router r1 labeled network.named-data.net/name=n1
and sibling r2 in the same namespace carrying the same label value n1), the
source's sibling listing selects no router at all — its selector keys the
network label on r1's NAME — whereas the claimed selection (routers sharing
r1's network label value, r1 excluded) is exactly r2. -/
theorem router_sibling_selection_uses_self_name :
    reconcileTargets cStoreC1 cSelf = [] ∧
    cStoreC1.filter (fun r => claimSiblingSelector cSelf r) = [cR2] := by
  exact ⟨by decide, by decide⟩

/-- C2 counterexample: with two siblings selected and every sibling status
patch failing, the reconcile collects no error at all (the patch result is
dropped), refuting the claim that per-sibling errors are collected. -/
theorem router_patch_errors_not_collected_cex :
    ¬ propagationFailurePolicy cSelf cEffAllFail := by
  intro h
  have hm : cS2 ∈ reconcileTargets cEffAllFail.store cSelf := by decide
  have h2 := h.2.1 cS2 hm { code := 7 } rfl
  exact absurd h2 (by decide)

/-- C2 (amended): a patch failure for one sibling does not abort the others —
every selected sibling's patch document is constructed whatever the patch
outcomes — but the patch results are discarded rather than collected: the
collected-error list is always empty, the whole outcome is independent of the
per-sibling patch outcomes, and sibling patch failures never make the
reconcile or cleanup fail, even when every sibling's patch fails. -/
theorem router_patch_failures_isolated_and_discarded
    (self : Router) (eff : ClusterEff) :
    (Router.reconcileModel self eff).collectedErrors = [] ∧
    (Router.cleanupModel self eff).collectedErrors = [] ∧
    (∀ pf, Router.reconcileModel self { eff with patchErr := pf } =
      Router.reconcileModel self eff) ∧
    (∀ pf, Router.cleanupModel self { eff with patchErr := pf } =
      Router.cleanupModel self eff) ∧
    (eff.listErr = none →
      (Router.reconcileModel self eff).patchesIssued =
        reconcilePatchList self eff.store ∧
      (Router.cleanupModel self eff).patchesIssued =
        cleanupPatchList self eff.store) := by
  refine ⟨?_, ?_, fun pf => rfl, fun pf => rfl, ?_⟩
  · unfold Router.reconcileModel
    split
    · rfl
    · split <;> rfl
  · unfold Router.cleanupModel
    split
    · rfl
    · split <;> rfl
  · intro h
    constructor
    · unfold Router.reconcileModel
      rw [h]
      dsimp only
      split <;> rfl
    · unfold Router.cleanupModel
      rw [h]
      dsimp only
      split <;> rfl

/-- C2 witness: at the concrete all-patches-fail effects, the reconcile still
constructs the patch documents for every selected sibling. -/
theorem router_patch_failures_isolated_and_discarded_witness :
    (Router.reconcileModel cSelf cEffAllFail).patchesIssued =
      reconcilePatchList cSelf cEffAllFail.store :=
  ((router_patch_failures_isolated_and_discarded cSelf cEffAllFail).2.2.2.2 rfl).1

/-- C3: the neighbor set in the status patch is the sibling's current neighbor
set (empty when the status subresource is absent) united with the reconciled
Router's face set on reconcile, and minus that face set on cleanup; an empty
face set leaves every sibling's neighbor set unchanged. -/
theorem router_patch_status_neighbors (self sib : Router) :
    (routerReconcilePatch self sib).neighbors =
      currentNeighbors sib ∪ self.spec.faces.to_btree_set ∧
    (routerCleanupPatch self sib).neighbors =
      currentNeighbors sib \ self.spec.faces.to_btree_set ∧
    (sib.status = none → currentNeighbors sib = ∅) ∧
    (self.spec.faces.to_btree_set = ∅ →
      (routerReconcilePatch self sib).neighbors = currentNeighbors sib ∧
      (routerCleanupPatch self sib).neighbors = currentNeighbors sib) := by
  refine ⟨routerReconcilePatch_neighbors self sib,
    routerCleanupPatch_neighbors self sib, ?_, ?_⟩
  · intro h
    simp [currentNeighbors, h]
  · intro h
    constructor
    · rw [routerReconcilePatch_neighbors, h, Finset.union_empty]
    · rw [routerCleanupPatch_neighbors, h, Finset.sdiff_empty]

/-- C3 witness: a faceless Router's patches leave the status-less sibling s2's
neighbor set unchanged (empty). -/
theorem router_patch_status_neighbors_witness :
    currentNeighbors cS2 = ∅ ∧
    (routerReconcilePatch cNoFace cS2).neighbors = currentNeighbors cS2 ∧
    (routerCleanupPatch cNoFace cS2).neighbors = currentNeighbors cS2 := by
  have h := router_patch_status_neighbors cNoFace cS2
  exact ⟨h.2.2.1 rfl, (h.2.2.2 (by decide)).1, (h.2.2.2 (by decide)).2⟩

/-- C4 counterexample: a face slot holding the empty-string address is kept by
to_btree_set, although the claimed set of non-empty addresses excludes it (in
particular a Router whose only populated slot holds the empty address has an
effective face set of size 1, not 0). -/
theorem face_set_empty_string_cex :
    RouterFaces.to_btree_set
        { udp4 := some "", tcp4 := none, udp6 := none, tcp6 := none } = {""} ∧
    nonEmptyFaceSet
        { udp4 := some "", tcp4 := none, udp6 := none, tcp6 := none } = ∅ ∧
    RouterFaces.to_btree_set
        { udp4 := some "", tcp4 := none, udp6 := none, tcp6 := none } ≠
      nonEmptyFaceSet
        { udp4 := some "", tcp4 := none, udp6 := none, tcp6 := none } := by
  exact ⟨by decide, by decide, by decide⟩

/-- C4 (amended): the effective face set is the set of addresses present
(Some) among the four optional slots, empty strings included; all four slots
absent yield the empty set, and udp4 = X with udp6 = Y and the two tcp slots
absent yield exactly the pair set of X and Y. -/
theorem to_btree_set_collects_present_faces (f : RouterFaces) :
    f.to_btree_set = presentFaceSet f ∧
    RouterFaces.to_btree_set
      { udp4 := none, tcp4 := none, udp6 := none, tcp6 := none } = ∅ ∧
    ∀ X Y : String,
      RouterFaces.to_btree_set
        { udp4 := some X, tcp4 := none, udp6 := some Y, tcp6 := none } = {X, Y} := by
  refine ⟨?_, by decide, ?_⟩
  · obtain ⟨u4, t4, u6, t6⟩ := f
    cases u4 <;> cases t4 <;> cases u6 <;> cases t6 <;>
      · ext x
        simp [RouterFaces.to_btree_set, presentFaceSet]
        try tauto
  · intro X Y
    ext x
    simp [RouterFaces.to_btree_set]
    try tauto

/-- C5 counterexample: sibling s3 already holds r1's face "A"; propagating r1
online and then offline leaves s3's neighbor set empty instead of restoring
the pre-online value. -/
theorem online_offline_round_trip_cex :
    roundTripNeighbors cSelf cS3 = ∅ ∧
    currentNeighbors cS3 = {"A"} ∧
    roundTripNeighbors cSelf cS3 ≠ currentNeighbors cS3 := by
  have h1 : roundTripNeighbors cSelf cS3 =
      (currentNeighbors cS3 ∪ cSelf.spec.faces.to_btree_set) \
        cSelf.spec.faces.to_btree_set := by
    unfold roundTripNeighbors
    rw [routerCleanupPatch_neighbors]
    have h2 : currentNeighbors
        { cS3 with status := some (routerReconcilePatch cSelf cS3) } =
        (routerReconcilePatch cSelf cS3).neighbors := rfl
    rw [h2, routerReconcilePatch_neighbors]
  refine ⟨?_, by decide, ?_⟩
  · rw [h1]
    decide
  · rw [h1]
    decide

/-- C5 (amended): the online-then-offline round trip leaves each sibling with
its pre-online neighbor set minus the Router's effective face set; it restores
the pre-online value exactly when the pre-online set was disjoint from the
face set. -/
theorem online_then_offline_removes_faces (self sib : Router) :
    roundTripNeighbors self sib =
      currentNeighbors sib \ self.spec.faces.to_btree_set ∧
    (Disjoint (currentNeighbors sib) self.spec.faces.to_btree_set →
      roundTripNeighbors self sib = currentNeighbors sib) := by
  have h1 : roundTripNeighbors self sib =
      (currentNeighbors sib ∪ self.spec.faces.to_btree_set) \
        self.spec.faces.to_btree_set := by
    unfold roundTripNeighbors
    rw [routerCleanupPatch_neighbors]
    have h2 : currentNeighbors
        { sib with status := some (routerReconcilePatch self sib) } =
        (routerReconcilePatch self sib).neighbors := rfl
    rw [h2, routerReconcilePatch_neighbors]
  constructor
  · rw [h1, Finset.union_sdiff_right]
  · intro hd
    rw [h1, Finset.union_sdiff_right, Finset.sdiff_eq_self_of_disjoint hd]

/-- C5 witness: for the status-less sibling s2 (empty neighbor set, disjoint
from r1's faces) the round trip is a genuine restore. -/
theorem online_then_offline_removes_faces_witness :
    roundTripNeighbors cSelf cS2 = currentNeighbors cS2 :=
  (online_then_offline_removes_faces cSelf cS2).2 (by decide)

/-- C6: every sibling status patch constructed by Router::reconcile carries
online = true and every one constructed by Router::cleanup carries
online = false, whatever the sibling's own prior status. -/
theorem sibling_patch_online_flag_matches_direction
    (self : Router) (store : List Router) :
    (∀ p ∈ reconcilePatchList self store, p.2.online = true) ∧
    (∀ p ∈ cleanupPatchList self store, p.2.online = false) := by
  constructor <;>
  · intro p hp
    simp only [reconcilePatchList, cleanupPatchList, List.mem_map] at hp
    obtain ⟨r, _, rfl⟩ := hp
    rfl

/-- C6 witness: the patch r1's reconcile constructs for s2 carries
online = true. -/
theorem sibling_patch_online_flag_matches_direction_witness :
    (cS2.name, routerReconcilePatch cSelf cS2).2.online = true :=
  (sibling_patch_online_flag_matches_direction cSelf cStore).1
    (cS2.name, routerReconcilePatch cSelf cS2)
    (by
      have h : reconcilePatchList cSelf cStore =
          (cS2.name, routerReconcilePatch cSelf cS2) ::
            [(cS3.name, routerReconcilePatch cSelf cS3)] := rfl
      rw [h]
      exact List.mem_cons_self _ _)

/-- C7 counterexample: when the self-pod lookup fails, Network::reconcile does
not return an error result at all — it panics through `expect`. -/
theorem self_pod_lookup_failure_panics_cex :
    (Network.reconcileModel cNw cNetEffFail).result =
      NOutcome.panicked "Failed to get my pod" ∧
    NOutcome.isErr (Network.reconcileModel cNw cNetEffFail).result = false :=
  ⟨rfl, rfl⟩

/-- C7 (amended): store errors of the DaemonSet apply patch, the event publish
and the own-status patch are each propagated as Network::reconcile's error
return; a self-pod lookup failure, however, panics the process instead of
being surfaced as an error result. -/
theorem network_reconcile_error_propagation (n : Network) (eff : NetworkEff) :
    (∀ e, eff.podLookup = .error e →
      (Network.reconcileModel n eff).result =
        .panicked "Failed to get my pod") ∧
    (∀ pod ps c, eff.podLookup = .ok pod → pod.spec = some ps →
      ps.containers.head? = some c →
      (∀ e, eff.dsPatchErr = some e →
        (Network.reconcileModel n eff).result = .err (.KubeError e)) ∧
      (eff.dsPatchErr = none → ∀ e, eff.publishErr = some e →
        (Network.reconcileModel n eff).result = .err (.KubeError e)) ∧
      (eff.dsPatchErr = none → eff.publishErr = none →
        ∀ e, eff.statusPatchErr = some e →
        (Network.reconcileModel n eff).result = .err (.KubeError e)) ∧
      (eff.dsPatchErr = none → eff.publishErr = none →
        eff.statusPatchErr = none →
        (Network.reconcileModel n eff).result = .ok Action.awaitChange)) := by
  constructor
  · intro e he
    simp [Network.reconcileModel, he]
  · intro pod ps c hpod hps hc
    refine ⟨?_, ?_, ?_, ?_⟩
    · intro e h1
      simp [Network.reconcileModel, hpod, hps, hc, h1]
    · intro h0 e h1
      simp [Network.reconcileModel, hpod, hps, hc, h0, h1]
    · intro h0 h1 e h2
      simp [Network.reconcileModel, hpod, hps, hc, h0, h1, h2]
    · intro h0 h1 h2
      simp [Network.reconcileModel, hpod, hps, hc, h0, h1, h2]

/-- C7 witness: the amended theorem applied to the concrete failing lookup and
to a concrete failing DaemonSet patch. -/
theorem network_reconcile_error_propagation_witness :
    (Network.reconcileModel cNw cNetEffFail).result =
      NOutcome.panicked "Failed to get my pod" ∧
    (Network.reconcileModel cNw cNetEffDsFail).result =
      NOutcome.err (Error.KubeError { code := 5 }) :=
  ⟨(network_reconcile_error_propagation cNw cNetEffFail).1 { code := 3 } rfl,
   ((network_reconcile_error_propagation cNw cNetEffDsFail).2 cPod cPodSpec cCtr
      rfl rfl rfl).1 { code := 5 } rfl⟩

/-- C8 counterexample: the socket filename is derived from the Network's name;
for Network n1 it is n1.sock, not the r1.sock the per-Router claim predicts
for its router r1. -/
theorem socket_file_named_after_network_cex :
    Network.socket_file_name cNw = "n1.sock" ∧ ¬ socketFileClaim cNw "r1" := by
  constructor
  · rfl
  · unfold socketFileClaim
    decide

/-- C8 (amended): the generated files are per-Network: a socket file named
after the Network under /run/ndnd and a config file named after the Network
under /etc/ndnd. -/
theorem generated_file_names (n : Network) :
    Network.socket_file_name n = n.name ++ ".sock" ∧
    Network.config_file_name n = n.name ++ ".yml" ∧
    CONTAINER_SOCKET_DIR = "/run/ndnd" ∧
    CONTAINER_CONFIG_DIR = "/etc/ndnd" ∧
    Network.container_socket_path n = "/run/ndnd/" ++ n.name ++ ".sock" ∧
    Network.container_config_path n = "/etc/ndnd/" ++ n.name ++ ".yml" := by
  exact ⟨rfl, rfl, rfl, rfl, rfl, rfl⟩

/-- C9: the generated DaemonSet carries the single label pair
(network, network-name) identically in its own metadata, the pod template
metadata and the match selector, and its owner references name the Network as
controller owner. -/
theorem daemonset_labels_and_owner (n : Network) (img sa : Option String) :
    (createOwnedDaemonset n img sa).metadata.labels =
      some [("network", n.name)] ∧
    ((createOwnedDaemonset n img sa).spec.map fun s => s.selector.matchLabels) =
      some (some [("network", n.name)]) ∧
    ((createOwnedDaemonset n img sa).spec.map fun s =>
        s.template.metadata.map (fun m => m.labels)) =
      some (some (some [("network", n.name)])) ∧
    (createOwnedDaemonset n img sa).metadata.ownerReferences =
      some [controllerOwnerRef n] ∧
    (controllerOwnerRef n).kind = "Network" ∧
    (controllerOwnerRef n).name = n.name ∧
    (controllerOwnerRef n).controller = some true :=
  ⟨rfl, rfl, rfl, rfl, rfl, rfl, rfl⟩

/-- C10: the generated DaemonSet does not depend on the Network's address
marker field: two Networks differing only in that field, with the same
controller image and service account, yield identical descriptors. -/
theorem daemonset_ignores_address_pfx (n : Network) (img sa : Option String)
    (p : String) :
    createOwnedDaemonset { n with spec := { n.spec with pfx := p } } img sa =
      createOwnedDaemonset n img sa := rfl

end Ndn
